import Mathlib

/-!
Verification of the ai-git session manager (src/aigit.py) against its
natural-language specification.  The Python source is shallowly embedded:
pure string processing is translated to functions over `List Char`
(Python strings index by code point, so a list of characters is the
faithful model), and the stateful lifecycle operations are translated to
explicit state-passing functions whose external effects (git commands,
file writes) are driven by explicit outcome parameters.
-/

namespace AIGit

/-- Decidable equality of `Except` results, for evaluating the parser on
concrete inputs. -/
instance {ε α : Type} [DecidableEq ε] [DecidableEq α] : DecidableEq (Except ε α)
  | .error e, .error e' =>
    if h : e = e' then .isTrue (by rw [h])
    else .isFalse (by intro hc; cases hc; exact h rfl)
  | .error _, .ok _ => .isFalse (by intro hc; cases hc)
  | .ok _, .error _ => .isFalse (by intro hc; cases hc)
  | .ok a, .ok a' =>
    if h : a = a' then .isTrue (by rw [h])
    else .isFalse (by intro hc; cases hc; exact h rfl)

/-- Python `str.isspace` characters relevant to `str.strip()` (ASCII range). -/
def isPySpace (c : Char) : Bool :=
  c = ' ' || c = '\t' || c = '\n' || c = '\r' || c = '\x0b' || c = '\x0c'

/-- Python `str.strip()`: drop leading and trailing whitespace. -/
def pyStrip (l : List Char) : List Char :=
  ((l.dropWhile isPySpace).reverse.dropWhile isPySpace).reverse

/-- All indices `i` such that `pat` occurs in `l` starting at `i`. -/
def occurrences (l pat : List Char) : List Nat :=
  (List.range (l.length + 1)).filter (fun i => pat.isPrefixOf (l.drop i))

/-- Python `str.find`: index of the first occurrence of `pat`, or `-1`. -/
def pyFind (l pat : List Char) : Int :=
  match (occurrences l pat).head? with
  | some i => (i : Int)
  | none => -1

/-- Python `str.rfind`: index of the last occurrence of `pat`, or `-1`. -/
def pyRfind (l pat : List Char) : Int :=
  match (occurrences l pat).getLast? with
  | some i => (i : Int)
  | none => -1

/-- Python `str.split(sep)` for a nonempty separator: scan left to right,
splitting at each non-overlapping occurrence of `sep`.  Structural
recursion on a fuel argument (each step consumes at least one character,
so fuel `l.length` never runs out). -/
def pySplitAux (sep : List Char) : Nat → List Char → List Char → List (List Char)
  | _, [], acc => [acc.reverse]
  | 0, l, acc => [acc.reverse ++ l]
  | fuel + 1, c :: t, acc =>
    if sep.isPrefixOf (c :: t) then
      acc.reverse :: pySplitAux sep fuel (t.drop (sep.length - 1)) []
    else
      pySplitAux sep fuel t (c :: acc)

/-- Python `content.split(sep)`. -/
def pySplit (l sep : List Char) : List (List Char) :=
  pySplitAux sep l.length l []

/-- Python `dict` insertion: an existing key keeps its position and gets the
new value, a new key is appended (Python dicts preserve insertion order). -/
def dictInsert (d : List (String × String)) (k v : String) : List (String × String) :=
  if d.any (fun p => p.1 = k) then
    d.map (fun p => if p.1 = k then (k, v) else p)
  else
    d ++ [(k, v)]

/-- The triple-backtick fence marker searched for by the parser. -/
def fenceChars : List Char := "```".data

/-- The section marker the parser splits on: `FILE: ` with a trailing space. -/
def fileMarker : List Char := "FILE: ".data

/-- One iteration of the parser loop of `AIGitREPL._parse_ollama_response`
(src/aigit.py lines 458-473): take the first line of the segment, stripped,
as the filename; locate the fence markers with `find`/`rfind`; if
`content_start > 2` and `content_end > content_start`, record the stripped
substring between them, otherwise skip the segment. -/
def processSection (changes : List (String × String)) (sect : List Char) :
    List (String × String) :=
  let filename := String.mk (pyStrip (sect.takeWhile (fun c => c ≠ '\n')))
  let contentStart : Int := pyFind sect fenceChars + 3
  let contentEnd : Int := pyRfind sect fenceChars
  if contentStart > 2 ∧ contentEnd > contentStart then
    dictInsert changes filename
      (String.mk (pyStrip ((sect.drop contentStart.toNat).take
        (contentEnd - contentStart).toNat)))
  else
    changes

/-- The edits extracted from a response: split on `FILE: `, drop the text
before the first marker, and process each remaining segment in order. -/
def extractChanges (content : String) : List (String × String) :=
  ((pySplit content.data fileMarker).drop 1).foldl processSection []

/-- `AIGitREPL._parse_ollama_response` (src/aigit.py lines 448-478) on the
`response` text: extract the edits and fail with
`No valid changes found in response` when none were found. -/
def parseOllamaResponse (content : String) : Except String (List (String × String)) :=
  let changes := extractChanges content
  if changes = [] then .error "No valid changes found in response" else .ok changes

/-! ## Data model and lifecycle state (src/aigit.py lines 27-50, 80-336) -/

/-- One entry of `Session.changes_history`, as built by
`AIGitTool.update_documentation` (lines 184-189). -/
structure ChangeRecord where
  timestamp : String
  prompt : String
  changes : List String
  commit : String
deriving DecidableEq, Repr

/-- The `Session` dataclass (lines 27-33).  `context_files` is a Python
set, modelled by its list of elements. -/
structure Session where
  branch : String
  context_files : List String
  changes_history : List ChangeRecord
  created_at : String
deriving DecidableEq, Repr

/-- Generic Python-dict insertion for string-keyed mappings: an existing
key keeps its position and gets the new value, a new key is appended. -/
def upsert {α : Type} (d : List (String × α)) (k : String) (v : α) :
    List (String × α) :=
  if d.any (fun p => p.1 = k) then
    d.map (fun p => if p.1 = k then (k, v) else p)
  else
    d ++ [(k, v)]

/-- Append one line to a text file opened with mode `a`: the file is
created when missing. -/
def appendDoc (docs : List (String × List String)) (p : String) (row : String) :
    List (String × List String) :=
  if docs.any (fun q => q.1 = p) then
    docs.map (fun q => if q.1 = p then (q.1, q.2 ++ [row]) else q)
  else
    docs ++ [(p, [row])]

/-- The observable state an `AIGitTool` instance acts on: the git
repository (branches, checked-out branch, per-branch commit history,
working-tree dirtiness, merge-in-progress marker), the in-memory
`self.session`, the persisted session slot
(`.git/ai-tool-session.pickle`), and the `ai-tool-docs` directory. -/
structure ToolState where
  branches : List String
  current : String
  dirty : Bool
  history : List (String × List Nat)
  mergeInProgress : Bool
  session : Option Session
  sessionFile : Option Session
  docFiles : List (String × List String)
deriving DecidableEq, Repr

/-- `AIGitTool._save_session` (lines 109-113): pickle the in-memory
session into the slot when one is active, otherwise do nothing.  Pickle
is an external serializer that round-trips the stored value, so the slot
holds the `Session` value itself. -/
def save_session (session : Option Session) (slot : Option Session) :
    Option Session :=
  match session with
  | some s => some s
  | none => slot

/-- `AIGitTool._load_session` (lines 99-107): unpickle the slot when the
file exists; a raising read (`readOk = false`) is logged and treated as
no session. -/
def load_session (slot : Option Session) (readOk : Bool) : Option Session :=
  match slot with
  | some s => if readOk then some s else none
  | none => none

/-- Which step of `AIGitTool.create_branch` raises, if any:
`repo.create_head`, `new_branch.checkout()`, `self._save_session()` or
`self._init_documentation(...)`. -/
inductive CreateFail where
  | ok
  | atCreateHead
  | atCheckout
  | atSave
  | atDocInit
deriving DecidableEq, Repr

/-- The header lines `AIGitTool._init_documentation` writes (lines 153-160). -/
def docHeader (branchName : String) : List String :=
  ["# AI-Assisted Changes: " ++ branchName,
   "## Change History",
   "| Timestamp | Prompt | Changes | Commit |",
   "|-----------|---------|----------|--------|"]

/-- `AIGitTool.create_branch` (lines 127-151).  The body runs inside one
`try`: an existing branch name returns `False` at once; otherwise the
steps run in order — create the head, check it out, set
`self.session` to a fresh `Session`, persist it, initialize the
documentation file — and a raise at any step jumps to the handler, which
returns `False` leaving every already-performed mutation in place. -/
def create_branch (st : ToolState) (name : String) (now : String)
    (fp : CreateFail) : Bool × ToolState :=
  if name ∈ st.branches then
    (false, st)
  else if fp = .atCreateHead then
    (false, st)
  else
    let st1 := { st with branches := st.branches ++ [name] }
    if fp = .atCheckout then
      (false, st1)
    else
      let st2 := { st1 with current := name }
      let sess : Session := ⟨name, [], [], now⟩
      let st3 := { st2 with session := some sess }
      if fp = .atSave then
        (false, st3)
      else
        let st4 := { st3 with sessionFile := some sess }
        if fp = .atDocInit then
          (false, st4)
        else
          (true, { st4 with
                   docFiles := upsert st4.docFiles (name ++ ".md") (docHeader name) })

/-- `AIGitTool.update_documentation` (lines 162-194).  With no active
session it warns and returns.  Otherwise one `try` block appends the
markdown table row to the branch's doc file, then appends the
`ChangeRecord` to `self.session.changes_history`, then persists the
session; any raise is caught, logged and swallowed, so a failing doc
write (`docWriteOk = false`) skips the history append, and a failing
session save (`saveOk = false`) keeps the in-memory append but not the
persisted one. -/
def update_documentation (st : ToolState) (prompt : String)
    (changes : List (String × String)) (commitHash : String) (now : String)
    (docWriteOk saveOk : Bool) : ToolState :=
  match st.session with
  | none => st
  | some sess =>
    if docWriteOk then
      let summary := changes.map (fun p => p.1 ++ " (modified)")
      let row := "| " ++ now ++ " | " ++ prompt ++ " | " ++
        String.intercalate "\n" summary ++ " | " ++ commitHash ++ " |"
      let st1 := { st with docFiles := appendDoc st.docFiles (sess.branch ++ ".md") row }
      let record : ChangeRecord := ⟨now, prompt, summary, commitHash⟩
      let sess' := { sess with changes_history := sess.changes_history ++ [record] }
      let st2 := { st1 with session := some sess' }
      if saveOk then { st2 with sessionFile := some sess' } else st2
    else
      st

/-! ## Config store (src/aigit.py lines 52-78) -/

/-- The possible states of `.git/ai-tool-config.json`: absent, present
but raising on `open`/`json.load`, or a parsed JSON object in which the
`structural_patterns` key may be present or missing. -/
inductive ConfigFile where
  | absent
  | unreadable
  | valid (structural_patterns : Option (List String))
deriving DecidableEq, Repr

/-- The default structural patterns (lines 57-63). -/
def defaultPatterns : List String :=
  ["package.json", "requirements.txt", "go.mod", "Cargo.toml", "setup.py"]

/-- `GitToolConfig._load_config` (lines 65-69): when the file exists,
`open` it and `json.load` it — there is no handler, so an I/O or parse
failure propagates to the caller; when it does not exist, return `{}`. -/
def load_config : ConfigFile → Except String (Option (List String))
  | .absent => .ok none
  | .unreadable => .error "failed to read or parse config file"
  | .valid ps => .ok ps

/-- The pattern initialization in `GitToolConfig.__init__` (line 57):
`self._load_config().get('structural_patterns', defaults)`. -/
def loadStructuralPatterns (cf : ConfigFile) : Except String (List String) :=
  (load_config cf).map (fun d => d.getD defaultPatterns)

/-! ## Context builder and change applier (src/aigit.py lines 196-204, 265-276) -/

/-- One result of `self.repo_path.rglob(pattern)`: a matching regular
file (readable or raising on `open`/`read`) or a matching directory. -/
inductive FsEntry where
  | file (path : String) (readable : Bool) (content : String)
  | dir (path : String)
deriving DecidableEq, Repr

/-- One iteration of the `get_structural_files` loop: skip a non-file
match, read a readable file into the mapping, and let an unreadable file
raise (an already-raised error propagates past the remaining matches). -/
def structuralStep (acc : Except String (List (String × String))) (e : FsEntry) :
    Except String (List (String × String)) :=
  match acc, e with
  | .error msg, _ => .error msg
  | .ok m, .dir _ => .ok m
  | .ok m, .file p readable c =>
    if readable then .ok (upsert m p c) else .error ("could not read " ++ p)

/-- `AIGitTool.get_structural_files` (lines 196-204): iterate over every
glob match in order, skip non-files, and read each file into the
mapping.  There is no per-file handler: an unreadable file raises out of
the whole loop. -/
def get_structural_files (globMatches : List FsEntry) :
    Except String (List (String × String)) :=
  globMatches.foldl structuralStep (.ok [])

/-- `true` for the glob matches `get_structural_files` handles without
raising: directories and readable files. -/
def entryOk : FsEntry → Bool
  | .file _ readable _ => readable
  | .dir _ => true

/-- The mapping collected from a run of glob matches when no read
raises: each file's content keyed by its path, in discovery order. -/
def readStructural (entries : List FsEntry) (m : List (String × String)) :
    List (String × String) :=
  entries.foldl
    (fun m e =>
      match e with
      | .dir _ => m
      | .file p _ c => upsert m p c) m

/-- `AIGitTool.apply_changes` (lines 265-276): write each edit in order
(creating parent directories), overwriting the file; the first failing
write raises, which the handler reports as `False`, leaving the earlier
writes in place and never attempting the later ones.  `writeOk` says
which paths can be written; `fs` is the file system, a mapping from path
to content. -/
def apply_changes (edits : List (String × String)) (writeOk : String → Bool)
    (fs : List (String × String)) : Bool × List (String × String) :=
  match edits with
  | [] => (true, fs)
  | (p, c) :: rest =>
    if writeOk p then apply_changes rest writeOk (upsert fs p c) else (false, fs)

/-! ## Merge to main (src/aigit.py lines 297-336) -/

/-- The result of a Python call that either returns a value or lets an
exception propagate to its caller. -/
inductive PyResult (α : Type) where
  | returns (a : α)
  | raises (msg : String)
deriving DecidableEq, Repr

/-- The outcome of `self.repo.git.merge(self.session.branch)`: either
the merge succeeds, producing the merged commit history for the
checked-out branch, or git raises a `GitCommandError` carrying `msg`,
leaving a merge in progress (a `MERGE_HEAD`, with conflict markers in
the tree) iff `inProgress` — a conflict does, while most other merge
failures (unmergeable ref, unrelated histories, untracked-file
collisions) stop before the merge starts and do not.  The code
recognizes conflicts only by the substring `CONFLICT` in `msg`. -/
inductive MergeOutcome where
  | success (merged : List Nat)
  | raised (msg : String) (inProgress : Bool)
deriving DecidableEq, Repr

/-- `branch.checkout()`: make `b` the checked-out branch. -/
def checkoutOp (st : ToolState) (b : String) : ToolState :=
  { st with current := b }

/-- The tree after a raising `git merge`: mid-merge with conflict
markers when the failure left a merge in progress, untouched when the
merge never started. -/
def mergeRaisedOp (st : ToolState) (inProgress : Bool) : ToolState :=
  if inProgress then { st with mergeInProgress := true, dirty := true } else st

/-- `git merge --abort`: restore the pre-merge working tree when a merge
is in progress, and raise `MERGE_HEAD missing` when none is. -/
def mergeAbortOp (st : ToolState) : Except String ToolState :=
  if st.mergeInProgress then
    .ok { st with mergeInProgress := false, dirty := false }
  else
    .error "fatal: There is no merge to abort (MERGE_HEAD missing)."

/-- A successful `git merge src`: the checked-out branch's history
becomes the merged history. -/
def mergeSuccessOp (st : ToolState) (merged : List Nat) : ToolState :=
  { st with history := upsert st.history st.current merged }

/-- `AIGitTool.merge_to_main` (lines 297-336): fail fast when no `main`
branch exists or the working tree is dirty; otherwise check out `main`
and merge the session branch.  When the merge raises, the inner handler
logs (choosing the conflict guidance iff `CONFLICT` occurs in the
message) and runs `git merge --abort`: if the abort succeeds it checks
the original branch back out and returns `False`, but if the abort
itself raises — which it does whenever the failed merge left no
`MERGE_HEAD` — control falls to the outer handler (line 333), whose own
`merge --abort` (line 335) is attempted once more and, raising again,
propagates out of the function without `current.checkout()` ever
running.  With no active session, reading `self.session.branch` raises
`AttributeError` straight to the outer handler.  The returned list is
the error log. -/
def merge_to_main (st : ToolState) (out : MergeOutcome) :
    PyResult Bool × ToolState × List String :=
  if "main" ∈ st.branches then
    let current := st.current
    if st.dirty then
      (.returns false, st,
       ["Working directory is not clean. Commit or stash changes first."])
    else
      let st1 := checkoutOp st "main"
      match st.session with
      | none =>
        match mergeAbortOp st1 with
        | .ok st2 => (.returns false, st2, ["Failed to merge to main"])
        | .error msg2 => (.raises msg2, st1, ["Failed to merge to main"])
      | some _sess =>
        match out with
        | .success merged => (.returns true, mergeSuccessOp st1 merged, [])
        | .raised msg inProgress =>
          let log :=
            if 0 ≤ pyFind msg.data ("CONFLICT".data) then
              ["Merge conflict detected. Please resolve conflicts manually."]
            else
              ["Merge failed: " ++ msg]
          let st2 := mergeRaisedOp st1 inProgress
          match mergeAbortOp st2 with
          | .ok st3 => (.returns false, checkoutOp st3 current, log)
          | .error _ =>
            match mergeAbortOp st2 with
            | .ok st3 => (.returns false, st3, log ++ ["Failed to merge to main"])
            | .error msg3 => (.raises msg3, st2, log ++ ["Failed to merge to main"])
  else
    (.returns false, st, ["Main branch does not exist"])

/-! ## Theorems about the response parser (claims C2, C3, C10) -/

/-- C2: a backend response whose split on `FILE: ` consists of an
explanation prefix and exactly one well-formed section parses to exactly
one edit — the trimmed first line of the section mapped to the trimmed
substring strictly between the end of the first fence marker (index
`i + 3`) and the start of the last one (index `j`) — with the prefix
contributing nothing; in particular the response
`Intro text\nFILE: a.py\n(fenced print(1))` yields exactly
`a.py ↦ print(1)`. -/
theorem parse_prefix_single_section
    (resp : String) (pre sect : List Char)
    (hsplit : pySplit resp.data fileMarker = [pre, sect])
    (i j : Nat)
    (hfirst : (occurrences sect fenceChars).head? = some i)
    (hlast : (occurrences sect fenceChars).getLast? = some j)
    (hij : i + 3 < j) :
    parseOllamaResponse resp =
      .ok [(String.mk (pyStrip (sect.takeWhile (fun c => c ≠ '\n'))),
            String.mk (pyStrip ((sect.drop (i + 3)).take (j - (i + 3)))))] ∧
    parseOllamaResponse "Intro text\nFILE: a.py\n```\nprint(1)\n```" =
      .ok [("a.py", "print(1)")] := by
  constructor
  · have hfind : pyFind sect fenceChars = (i : Int) := by
      simp [pyFind, hfirst]
    have hrfind : pyRfind sect fenceChars = (j : Int) := by
      simp [pyRfind, hlast]
    have h1 : ((i : Int) + 3).toNat = i + 3 := by omega
    have h2 : ((j : Int) - ((i : Int) + 3)).toNat = j - (i + 3) := by omega
    have hext : extractChanges resp =
        [(String.mk (pyStrip (sect.takeWhile (fun c => c ≠ '\n'))),
          String.mk (pyStrip ((sect.drop (i + 3)).take (j - (i + 3)))))] := by
      unfold extractChanges
      rw [hsplit]
      simp only [List.drop_succ_cons, List.drop_zero, List.foldl_cons, List.foldl_nil]
      simp only [processSection]
      rw [hfind, hrfind, if_pos ⟨by omega, by omega⟩, h1, h2]
      simp [dictInsert]
    simp only [parseOllamaResponse]
    rw [hext]
    simp
  · decide

/-- C2 witness: the general theorem applied to the concrete response of
the claim. -/
theorem parse_prefix_single_section_witness :
    parseOllamaResponse "Intro text\nFILE: a.py\n```\nprint(1)\n```" =
      .ok [("a.py", "print(1)")] :=
  ((parse_prefix_single_section "Intro text\nFILE: a.py\n```\nprint(1)\n```"
      ("Intro text\n".data) ("a.py\n```\nprint(1)\n```".data) (by decide)
      5 18 (by decide) (by decide) (by decide)).1).trans (by decide)

/-- C3: a segment whose fence markers cannot be located
(`content_start ≤ 2` or `content_end` not strictly greater) is skipped
without failing the parse; the response with one well-formed and one
unterminated-fence section yields exactly one edit; and a response with
zero valid edits fails with the no-changes error. -/
theorem parser_skips_malformed :
    (∀ (changes : List (String × String)) (sect : List Char),
        ¬ (pyFind sect fenceChars + 3 > 2 ∧
           pyRfind sect fenceChars > pyFind sect fenceChars + 3) →
        processSection changes sect = changes) ∧
    parseOllamaResponse "FILE: a.py\n```\nprint(1)\n```\nFILE: b.py\n```\nunterminated" =
      .ok [("a.py", "print(1)")] ∧
    (∀ content : String, extractChanges content = [] →
        parseOllamaResponse content = .error "No valid changes found in response") := by
  refine ⟨?_, by decide, ?_⟩
  · intro changes sect h
    simp only [processSection]
    rw [if_neg h]
  · intro content h
    simp only [parseOllamaResponse]
    rw [h, if_pos rfl]

/-- C3 witness: the skip rule applied to a concrete unterminated segment
and the no-changes error applied to a concrete marker-free response. -/
theorem parser_skips_malformed_witness :
    processSection [] ("b.py\n```\nunterminated".data) = [] ∧
    parseOllamaResponse "no sections here" =
      .error "No valid changes found in response" :=
  ⟨parser_skips_malformed.1 [] ("b.py\n```\nunterminated".data) (by decide),
   parser_skips_malformed.2.2 "no sections here" (by decide)⟩

/-- C10: only the exact string `FILE: ` (with the trailing space) starts
a section: a response in which the marker with a space never occurs
parses to the no-changes error even when it contains `FILE:` directly
followed by a path and a well-formed fenced block, and in a response
with a well-formed `FILE: good.py` section followed by a space-less
`FILE:bad.py` section only `good.py` is a key of the result. -/
theorem marker_requires_trailing_space :
    (∀ content : String, pySplit content.data fileMarker = [content.data] →
        parseOllamaResponse content = .error "No valid changes found in response") ∧
    parseOllamaResponse "FILE:a.py\n```\nprint(1)\n```" =
      .error "No valid changes found in response" ∧
    Except.map (List.map Prod.fst)
        (parseOllamaResponse "FILE: good.py\n```\na\n```\nFILE:bad.py\n```\nb\n```") =
      .ok ["good.py"] := by
  refine ⟨?_, by decide, by decide⟩
  intro content h
  simp only [parseOllamaResponse, extractChanges]
  rw [h]
  simp

/-- C10 witness: the marker-free rule applied to a concrete response. -/
theorem marker_requires_trailing_space_witness :
    parseOllamaResponse "just text" = .error "No valid changes found in response" :=
  marker_requires_trailing_space.1 "just text" (by decide)

/-! ## Theorems about the lifecycle controller and stores
(claims C1, C4, C5, C6, C7, C8, C9) -/

/-- A repository state with a `main` branch and no active session, used
as the concrete starting point of counterexamples and witnesses. -/
def st0 : ToolState :=
  { branches := ["main"], current := "main", dirty := false,
    history := [("main", [0])], mergeInProgress := false,
    session := none, sessionFile := none, docFiles := [] }

/-- C1 counterexample: when documentation initialization raises after
the session was saved, `create_branch` returns `False` — yet the session
file still holds the fresh session and the in-memory session is active,
so the state is neither unpersisted nor `NoSession`. -/
theorem create_branch_docfail_counterexample :
    (create_branch st0 "feat" "t0" .atDocInit).1 = false ∧
    (create_branch st0 "feat" "t0" .atDocInit).2.sessionFile =
      some ⟨"feat", [], [], "t0"⟩ ∧
    (create_branch st0 "feat" "t0" .atDocInit).2.session ≠ none := by
  decide

/-- C1 amended: a failed `create_branch` leaves exactly the mutations
already performed in place.  An existing name or a raising
`create_head` leaves the state untouched; a raising checkout leaves the
created branch; a raising session save leaves the in-memory session
active but nothing persisted; a raising documentation init leaves the
session both active and persisted.  Every failure is reported as the
boolean `false`, never raised. -/
theorem create_branch_failure_spec (st : ToolState) (name now : String) :
    (∀ fp, name ∈ st.branches → create_branch st name now fp = (false, st)) ∧
    (name ∉ st.branches →
      create_branch st name now .atCreateHead = (false, st)) ∧
    (name ∉ st.branches →
      create_branch st name now .atCheckout =
        (false, { st with branches := st.branches ++ [name] })) ∧
    (name ∉ st.branches →
      create_branch st name now .atSave =
        (false, { st with branches := st.branches ++ [name], current := name,
                          session := some ⟨name, [], [], now⟩ })) ∧
    (name ∉ st.branches →
      create_branch st name now .atDocInit =
        (false, { st with branches := st.branches ++ [name], current := name,
                          session := some ⟨name, [], [], now⟩,
                          sessionFile := some ⟨name, [], [], now⟩ })) := by
  refine ⟨fun fp h => ?_, fun h => ?_, fun h => ?_, fun h => ?_, fun h => ?_⟩ <;>
    simp [create_branch, h]

/-- C1 witness: the amended theorem applied at a concrete state — the
save-failure case leaves the in-memory session set but the slot empty. -/
theorem create_branch_failure_spec_witness :
    create_branch st0 "feat" "t0" .atSave =
      (false, { st0 with branches := ["main", "feat"], current := "feat",
                         session := some ⟨"feat", [], [], "t0"⟩ }) :=
  ((create_branch_failure_spec st0 "feat" "t0").2.2.2.1 (by decide)).trans (by decide)

/-- A repository state with an active session on branch `feat`, used as
the concrete starting point of counterexamples and witnesses. -/
def stActive : ToolState :=
  { branches := ["main", "feat"], current := "feat", dirty := false,
    history := [("main", [0]), ("feat", [0, 1])], mergeInProgress := false,
    session := some ⟨"feat", [], [], "t0"⟩,
    sessionFile := some ⟨"feat", [], [], "t0"⟩,
    docFiles := [("feat.md", [])] }

/-- C4 counterexample: a merge that fails without starting (no
`MERGE_HEAD`, as for an unrelated-histories refusal) makes the abort in
the handler raise and the outer handler's second abort raise out of the
call: instead of reporting `False` back on the session branch, the
function raises the abort error with the repository left on `main`. -/
theorem merge_nonconflict_abort_counterexample :
    (merge_to_main stActive
        (.raised "fatal: refusing to merge unrelated histories" false)).1 =
      .raises "fatal: There is no merge to abort (MERGE_HEAD missing)." ∧
    (merge_to_main stActive
        (.raised "fatal: refusing to merge unrelated histories" false)).2.1.current =
      "main" ∧
    stActive.current = "feat" := by
  decide

/-- C4 amended: when the attempted merge fails leaving a merge in
progress — a conflict in particular — `merge_to_main` aborts it,
returns to the original session branch with every branch history, the
session and its persisted copy untouched, and reports `False` with a
logged message.  But when the merge failure leaves no merge in
progress, `git merge --abort` itself raises, the outer handler's second
abort raises out of the function: the repository is left checked out on
`main` (histories and session still untouched) and `False` is never
returned. -/
theorem merge_failure_paths (st : ToolState) (msg : String) (sess : Session)
    (hmain : "main" ∈ st.branches) (hclean : st.dirty = false)
    (hsess : st.session = some sess) (hnomerge : st.mergeInProgress = false) :
    ((merge_to_main st (.raised msg true)).1 = .returns false ∧
     (merge_to_main st (.raised msg true)).2.1.current = st.current ∧
     (merge_to_main st (.raised msg true)).2.1.history = st.history ∧
     (merge_to_main st (.raised msg true)).2.1.branches = st.branches ∧
     (merge_to_main st (.raised msg true)).2.1.session = st.session ∧
     (merge_to_main st (.raised msg true)).2.1.sessionFile = st.sessionFile ∧
     (merge_to_main st (.raised msg true)).2.1.mergeInProgress = false ∧
     (merge_to_main st (.raised msg true)).2.1.dirty = st.dirty ∧
     (merge_to_main st (.raised msg true)).2.2 ≠ []) ∧
    ((merge_to_main st (.raised msg false)).1 =
       .raises "fatal: There is no merge to abort (MERGE_HEAD missing)." ∧
     (merge_to_main st (.raised msg false)).2.1.current = "main" ∧
     (merge_to_main st (.raised msg false)).2.1.history = st.history ∧
     (merge_to_main st (.raised msg false)).2.1.branches = st.branches ∧
     (merge_to_main st (.raised msg false)).2.1.session = st.session ∧
     (merge_to_main st (.raised msg false)).2.1.sessionFile = st.sessionFile) := by
  simp only [merge_to_main, if_pos hmain, hclean, Bool.false_eq_true, if_false,
    hsess, checkoutOp, mergeRaisedOp, mergeAbortOp, if_true, hnomerge]
  constructor
  · refine ⟨?_, ?_, ?_, ?_, ?_, ?_, ?_, ?_, ?_⟩ <;>
      first
        | trivial
        | rfl
        | (split <;> simp)
  · refine ⟨?_, ?_, ?_, ?_, ?_, ?_⟩ <;> trivial

/-- C4 witness: the amended theorem applied to a concrete state, with a
conflict that left a merge in progress. -/
theorem merge_failure_paths_witness :
    (merge_to_main stActive (.raised "CONFLICT (content): a.py" true)).1 =
      .returns false ∧
    (merge_to_main stActive (.raised "CONFLICT (content): a.py" true)).2.1.current =
      stActive.current :=
  have h := merge_failure_paths stActive "CONFLICT (content): a.py"
    ⟨"feat", [], [], "t0"⟩ (by decide) (by decide) (by decide) (by decide)
  ⟨h.1.1, h.1.2.1⟩

/-- C5 counterexample: with an active session whose history is empty, a
failing documentation write makes `update_documentation` return with the
state — in particular the change history — completely unchanged: the
`ChangeRecord` the claim promises is never appended. -/
theorem update_documentation_docfail_counterexample :
    update_documentation stActive "add prints" [("a.py", "print(1)")] "c0" "t1"
      false true = stActive ∧
    (update_documentation stActive "add prints" [("a.py", "print(1)")] "c0" "t1"
      false true).session ≠
      some ⟨"feat", [], [⟨"t1", "add prints", ["a.py (modified)"], "c0"⟩], "t0"⟩ := by
  decide

/-- C5 amended: a failing documentation-log write is caught (the call
returns normally, so the workflow is not aborted and nothing is raised),
but because the history append follows the write inside the same `try`
block, the `ChangeRecord` is not appended: the whole state is left
unchanged. -/
theorem update_documentation_docfail_spec (st : ToolState) (prompt : String)
    (changes : List (String × String)) (commitHash now : String) (saveOk : Bool) :
    update_documentation st prompt changes commitHash now false saveOk = st := by
  rcases hs : st.session with _ | sess <;> simp [update_documentation, hs]

/-- C6: persisting any session and reading the slot back yields a
session equal to the original in all four fields. -/
theorem session_round_trip (sess : Session) (slot : Option Session) :
    ∃ s', load_session (save_session (some sess) slot) true = some s' ∧
      s'.branch = sess.branch ∧ s'.context_files = sess.context_files ∧
      s'.changes_history = sess.changes_history ∧ s'.created_at = sess.created_at :=
  ⟨sess, rfl, rfl, rfl, rfl, rfl⟩

/-- C7 counterexample: a config file that raises on read or parse makes
the load raise to the caller instead of falling back to the default
patterns. -/
theorem config_unreadable_counterexample :
    loadStructuralPatterns ConfigFile.unreadable =
      .error "failed to read or parse config file" ∧
    loadStructuralPatterns ConfigFile.unreadable ≠ .ok defaultPatterns := by
  decide

/-- C7 amended: an absent config file and a config object without the
`structural_patterns` key both yield the default patterns, and a present
key yields its value — but a file that raises on read or parse is fatal
to the caller (`_load_config` has no handler), with no fallback. -/
theorem config_load_spec :
    loadStructuralPatterns ConfigFile.absent = .ok defaultPatterns ∧
    loadStructuralPatterns (ConfigFile.valid none) = .ok defaultPatterns ∧
    (∀ ps : List String,
      loadStructuralPatterns (ConfigFile.valid (some ps)) = .ok ps) ∧
    loadStructuralPatterns ConfigFile.unreadable =
      .error "failed to read or parse config file" :=
  ⟨rfl, rfl, fun _ => rfl, rfl⟩

/-- A raised read error propagates unchanged past all remaining glob
matches. -/
theorem structural_error_absorbs (l : List FsEntry) (msg : String) :
    l.foldl structuralStep (.error msg) = .error msg := by
  induction l with
  | nil => rfl
  | cons e t ih => rw [List.foldl_cons]; exact ih

/-- Folding over matches that raise no read error collects exactly
`readStructural`. -/
theorem structural_ok_fold (l : List FsEntry) :
    ∀ m : List (String × String), l.all entryOk = true →
      l.foldl structuralStep (.ok m) = .ok (readStructural l m) := by
  induction l with
  | nil => intro m _; rfl
  | cons e t ih =>
    intro m h
    rw [List.all_cons, Bool.and_eq_true] at h
    cases e with
    | dir p =>
      rw [List.foldl_cons]
      exact ih m h.2
    | file p r c =>
      have hr : r = true := h.1
      subst hr
      rw [List.foldl_cons]
      exact ih (upsert m p c) h.2

/-- C8 counterexample: one unreadable matched file makes the whole
collection raise; the mapping of the remaining readable files is not
returned. -/
theorem structural_files_unreadable_counterexample :
    get_structural_files
        [FsEntry.file "package.json" true "pkg",
         FsEntry.file "requirements.txt" false "",
         FsEntry.file "setup.py" true "su"] =
      .error "could not read requirements.txt" ∧
    get_structural_files
        [FsEntry.file "package.json" true "pkg",
         FsEntry.file "requirements.txt" false "",
         FsEntry.file "setup.py" true "su"] ≠
      .ok [("package.json", "pkg"), ("setup.py", "su")] := by
  decide

/-- C8 amended: the collection succeeds with the full path-to-content
mapping only when every matched file is readable; the first unreadable
matched file raises out of the loop and aborts the whole operation, so
no partial mapping is returned. -/
theorem structural_files_spec :
    (∀ (pre rest : List FsEntry) (p c : String),
        pre.all entryOk = true →
        get_structural_files (pre ++ FsEntry.file p false c :: rest) =
          .error ("could not read " ++ p)) ∧
    (∀ entries : List FsEntry, entries.all entryOk = true →
        get_structural_files entries = .ok (readStructural entries [])) := by
  constructor
  · intro pre rest p c h
    unfold get_structural_files
    rw [List.foldl_append, structural_ok_fold pre [] h, List.foldl_cons]
    exact structural_error_absorbs rest _
  · intro entries h
    exact structural_ok_fold entries [] h

/-- C8 witness: the amended theorem applied to a concrete run of
matches whose second file is unreadable. -/
theorem structural_files_spec_witness :
    get_structural_files
        [FsEntry.file "package.json" true "pkg",
         FsEntry.file "requirements.txt" false "",
         FsEntry.file "setup.py" true "su"] =
      .error "could not read requirements.txt" :=
  (structural_files_spec.1 [FsEntry.file "package.json" true "pkg"]
      [FsEntry.file "setup.py" true "su"] "requirements.txt" "" (by decide)).trans
    (by decide)

/-- The file system after writing every edit of `edits` in order. -/
def writeAll (edits : List (String × String)) (fs : List (String × String)) :
    List (String × String) :=
  edits.foldl (fun f e => upsert f e.1 e.2) fs

/-- When every write succeeds, `apply_changes` reports success and the
file system holds every edit. -/
theorem apply_changes_all_ok (edits : List (String × String)) :
    ∀ (writeOk : String → Bool) (fs : List (String × String)),
      edits.all (fun e => writeOk e.1) = true →
      apply_changes edits writeOk fs = (true, writeAll edits fs) := by
  induction edits with
  | nil => intro w fs _; rfl
  | cons e t ih =>
    intro w fs h
    obtain ⟨p, c⟩ := e
    rw [List.all_cons, Bool.and_eq_true] at h
    simp only [apply_changes, h.1, if_true]
    exact ih w (upsert fs p c) h.2

/-- The first failing write aborts the batch: the edits before it are
applied and kept, the failing one and all later ones are not. -/
theorem apply_changes_prefix_fail (pre : List (String × String)) :
    ∀ (post : List (String × String)) (p c : String)
      (writeOk : String → Bool) (fs : List (String × String)),
      pre.all (fun e => writeOk e.1) = true → writeOk p = false →
      apply_changes (pre ++ (p, c) :: post) writeOk fs = (false, writeAll pre fs) := by
  induction pre with
  | nil =>
    intro post p c w fs _ hp
    simp only [List.nil_append, apply_changes, hp, Bool.false_eq_true, if_false]
    rfl
  | cons e t ih =>
    intro post p c w fs hall hp
    obtain ⟨q, d⟩ := e
    rw [List.all_cons, Bool.and_eq_true] at hall
    simp only [List.cons_append, apply_changes, hall.1, if_true]
    exact ih post p c w (upsert fs q d) hall.2 hp

/-- `apply_changes` reports success exactly when every write in the
batch succeeds. -/
theorem apply_changes_success_iff (edits : List (String × String)) :
    ∀ (writeOk : String → Bool) (fs : List (String × String)),
      ((apply_changes edits writeOk fs).1 = true ↔
        edits.all (fun e => writeOk e.1) = true) := by
  induction edits with
  | nil => intro w fs; simp [apply_changes]
  | cons e t ih =>
    intro w fs
    obtain ⟨p, c⟩ := e
    rcases hp : w p with _ | _
    · simp [apply_changes, hp]
    · simp [apply_changes, hp, ih]

/-- C9: `apply_changes` returns success iff every file write succeeds;
the first I/O failure aborts the remaining writes and reports failure,
with the files already written before the failure left in their newly
written state. -/
theorem apply_changes_spec :
    (∀ (edits : List (String × String)) (writeOk : String → Bool)
        (fs : List (String × String)),
        ((apply_changes edits writeOk fs).1 = true ↔
          edits.all (fun e => writeOk e.1) = true)) ∧
    (∀ (pre post : List (String × String)) (p c : String)
        (writeOk : String → Bool) (fs : List (String × String)),
        pre.all (fun e => writeOk e.1) = true → writeOk p = false →
        apply_changes (pre ++ (p, c) :: post) writeOk fs =
          (false, writeAll pre fs)) ∧
    (∀ (edits : List (String × String)) (writeOk : String → Bool)
        (fs : List (String × String)),
        edits.all (fun e => writeOk e.1) = true →
        apply_changes edits writeOk fs = (true, writeAll edits fs)) :=
  ⟨fun edits w fs => apply_changes_success_iff edits w fs,
   fun pre post p c w fs h hp => apply_changes_prefix_fail pre post p c w fs h hp,
   fun edits w fs h => apply_changes_all_ok edits w fs h⟩

/-- C9 witness: a concrete batch whose second write fails keeps the
first write, never performs the third, and reports failure. -/
theorem apply_changes_spec_witness :
    apply_changes [("a.py", "1"), ("b.py", "2"), ("c.py", "3")]
        (fun p => !(p == "b.py")) [] = (false, [("a.py", "1")]) :=
  (apply_changes_spec.2.1 [("a.py", "1")] [("c.py", "3")] "b.py" "2"
      (fun p => !(p == "b.py")) [] (by decide) (by decide)).trans (by decide)

end AIGit
